import Mathlib

/-!
Verification of the BLE LED-button-service servo application.

The development shallowly embeds the two C translation units of the
repository: the GATT service handlers (`write_led`, `read_button`,
`my_lbs_init`) and the application layer (`run_servo_cycle`,
`set_motor_angle`, `app_led_cb`, `app_button_cb`, `button_handler`,
the advertising work item).  Hardware effects (PWM commands, sleeps,
the indicator LED) are recorded in an explicit command trace, and the
outcome of each hardware call is supplied by an environment record so
that failure behaviour can be reasoned about.
-/

/-- Attribute-protocol error code for an invalid attribute value length
(`BT_ATT_ERR_INVALID_ATTRIBUTE_LEN` = 0x0d). -/
def BT_ATT_ERR_INVALID_ATTRIBUTE_LEN : Nat := 0x0d

/-- Attribute-protocol error code for an invalid offset
(`BT_ATT_ERR_INVALID_OFFSET` = 0x07). -/
def BT_ATT_ERR_INVALID_OFFSET : Nat := 0x07

/-- Attribute-protocol error code for a value not allowed
(`BT_ATT_ERR_VALUE_NOT_ALLOWED` = 0x13). -/
def BT_ATT_ERR_VALUE_NOT_ALLOWED : Nat := 0x13

/-- `BT_GATT_ERR(x)` wraps an ATT error code as a negative return value. -/
def BT_GATT_ERR (e : Nat) : Int := -(e : Int)

/-- `errno` code `ENODEV` = 19; `run_servo_cycle` returns `-ENODEV` when
the PWM device is not ready. -/
def ENODEV : Nat := 19

/-- Bit mask of button 1 on the development kit (`DK_BTN1_MSK`, bit 0). -/
def DK_BTN1_MSK : Nat := 1

/-- Modelled from the spec: the minimum servo pulse width is a
device-declared constant, not computed; the devicetree binding is not in
the sources, and the code comment documents it as 1 ms
(`PWM_SERVO_MIN_PULSE_WIDTH`, in nanoseconds). -/
def PWM_SERVO_MIN_PULSE_WIDTH : Nat := 1000000

/-- Modelled from the spec: the maximum servo pulse width is a
device-declared constant, documented by the code comment as 2 ms
(`PWM_SERVO_MAX_PULSE_WIDTH`, in nanoseconds). -/
def PWM_SERVO_MAX_PULSE_WIDTH : Nat := 2000000

/-- One observable hardware command issued by the application layer:
a PWM position command (`pwm_set_dt` with the given pulse width in ns),
a blocking sleep (`k_msleep`), or an indicator-LED set (`dk_set_led`). -/
inductive Cmd where
  | setPos (pulseNs : Nat)
  | sleepMs (ms : Nat)
  | setLed (state : Bool)
  deriving DecidableEq, Repr

/-- Environment supplying the outcome of each hardware call:
whether the PWM device reports ready (`pwm_is_ready_dt`), the result of
the k-th `pwm_set_dt` call inside one handler invocation (0 = success),
and the result of `dk_set_led`. -/
structure HwEnv where
  pwmReady : Bool
  pwmResult : Nat → Int
  ledResult : Int

/-- An environment in which the PWM device is ready and every hardware
call succeeds. -/
def envOk : HwEnv := ⟨true, fun _ => 0, 0⟩

/-- `set_motor_angle`: issues one `pwm_set_dt` command at the given pulse
width; the k-th call's result comes from the environment.  The error is
logged and returned unchanged. -/
def set_motor_angle (env : HwEnv) (k : Nat) (pulse_width_ns : Nat) :
    Int × List Cmd :=
  (env.pwmResult k, [Cmd.setPos pulse_width_ns])

/-- `run_servo_cycle`: checks PWM readiness, then commands
1125000 ns (~22.5°), sleeps 50 ms, commands 1875000 ns (~157.5°),
sleeps 750 ms, and returns to 1125000 ns, aborting on the first
`set_motor_angle` failure and returning its error code. -/
def run_servo_cycle (env : HwEnv) : Int × List Cmd :=
  if !env.pwmReady then (-(ENODEV : Int), [])
  else
    let r1 := set_motor_angle env 0 1125000
    if r1.1 ≠ 0 then (r1.1, r1.2)
    else
      let r2 := set_motor_angle env 1 1875000
      if r2.1 ≠ 0 then (r2.1, r1.2 ++ [Cmd.sleepMs 50] ++ r2.2)
      else
        let r3 := set_motor_angle env 2 1125000
        if r3.1 ≠ 0 then
          (r3.1, r1.2 ++ [Cmd.sleepMs 50] ++ r2.2 ++ [Cmd.sleepMs 750] ++ r3.2)
        else
          (0, r1.2 ++ [Cmd.sleepMs 50] ++ r2.2 ++ [Cmd.sleepMs 750] ++ r3.2)

/-- `app_led_cb`: on `true` runs the servo cycle, on `false` commands the
device-declared minimum pulse width once; hardware errors are logged and
discarded; finally sets the indicator LED (`BLINKY_LED`) to the written
state.  Returns the hardware command trace (the callback returns `void`). -/
def app_led_cb (env : HwEnv) (led_state : Bool) : List Cmd :=
  let t :=
    if led_state then (run_servo_cycle env).2
    else (set_motor_angle env 0 PWM_SERVO_MIN_PULSE_WIDTH).2
  t ++ [Cmd.setLed led_state]

/-- `write_led`: validates length = 1, then offset = 0; if the LED
callback is registered, reads the first payload byte, invokes the
callback for 0x00/0x01 and rejects any other byte with
`VALUE_NOT_ALLOWED`; if no callback is registered, only logs.  Returns
the ATT result together with the hardware command trace of the callback. -/
def write_led (cbRegistered : Bool) (env : HwEnv) (buf : List Nat)
    (len offset : Nat) : Int × List Cmd :=
  if len ≠ 1 then (BT_GATT_ERR BT_ATT_ERR_INVALID_ATTRIBUTE_LEN, [])
  else if offset ≠ 0 then (BT_GATT_ERR BT_ATT_ERR_INVALID_OFFSET, [])
  else if cbRegistered then
    let val := buf.headD 0
    if val = 0 ∨ val = 1 then
      ((len : Int), app_led_cb env (val ≠ 0))
    else
      (BT_GATT_ERR BT_ATT_ERR_VALUE_NOT_ALLOWED, [])
  else
    ((len : Int), [])

/-- Modelled from the spec: the generic attribute-read helper
(`bt_gatt_attr_read`) is external to the core; per its documented
contract it rejects an offset past the end of the stored value with
`INVALID_OFFSET` and otherwise copies
`min (buffer length) (value length - offset)` bytes starting at the
offset, returning the number of bytes copied. -/
def bt_gatt_attr_read (buf_len offset : Nat) (value : List Nat) :
    Int × List Nat :=
  if value.length < offset then (BT_GATT_ERR BT_ATT_ERR_INVALID_OFFSET, [])
  else
    let n := min buf_len (value.length - offset)
    ((n : Int), (value.drop offset).take n)

/-- `read_button`: if the button callback is registered, first overwrites
the stored `button_state` with the provider's result, then delegates to
`bt_gatt_attr_read` over that one stored byte; with no callback it logs
and returns 0 bytes, leaving the stored value unchanged.  Returns the new
stored state, the ATT result, and the bytes handed to the peer. -/
def read_button (cbRegistered : Bool) (providerResult : Bool)
    (stored : Bool) (buf_len offset : Nat) : Bool × Int × List Nat :=
  if cbRegistered then
    let stored := providerResult
    let r := bt_gatt_attr_read buf_len offset [if stored then 1 else 0]
    (stored, r.1, r.2)
  else
    (stored, 0, [])

/-- `button_handler`: sets the stored state to `true` when the monitored
bit is set in both `has_changed` and `button_state`, to `false` when it
is set in `has_changed` only, and leaves it unchanged otherwise. -/
def button_handler (button_state has_changed : Nat) (st : Bool) : Bool :=
  if Nat.land (Nat.land has_changed button_state) DK_BTN1_MSK ≠ 0 then true
  else if Nat.land has_changed DK_BTN1_MSK ≠ 0 then false
  else st

/-- State of the single advertising work item: whether a submission is
pending, and how many times the handler has invoked `bt_le_adv_start`. -/
structure AdvState where
  pending : Bool
  startCount : Nat
  deriving DecidableEq, Repr

/-- Modelled from the spec: `k_work_submit` on the single work item; if a
submission is already pending the work-queue discipline coalesces the
call, so at most one submission is outstanding. -/
def k_work_submit (s : AdvState) : AdvState := { s with pending := true }

/-- `advertising_start`: submits the advertising work item. -/
def advertising_start (s : AdvState) : AdvState := k_work_submit s

/-- `recycled_cb`: on a connection-recycle event, requests an advertising
start. -/
def recycled_cb (s : AdvState) : AdvState := advertising_start s

/-- `adv_work_handler` executing: consumes the pending submission and
calls the stack's advertising-start primitive exactly once; running with
no pending submission does nothing. -/
def adv_work_run (s : AdvState) : AdvState :=
  if s.pending then ⟨false, s.startCount + 1⟩ else s

/-- Events of the advertising scheduler: a `requestStart` submission or
an execution of the deferred work item. -/
inductive AdvEvent where
  | reqStart
  | runWork
  deriving DecidableEq, Repr

/-- One step of the advertising-scheduler state machine. -/
def advStep (s : AdvState) (e : AdvEvent) : AdvState :=
  match e with
  | .reqStart => advertising_start s
  | .runWork => adv_work_run s

/-- An environment in which the PWM device is not ready and every
hardware call fails. -/
def envFail : HwEnv := ⟨false, fun _ => -5, -7⟩

/-- An environment in which the PWM device is ready but the second
position command (call index 1) fails with code -5. -/
def envFailSecond : HwEnv := ⟨true, fun k => if k = 1 then -5 else 0, 0⟩

/-- C2: a write to the LED characteristic with length ≠ 1 is rejected
with `InvalidLength` (even if the offset is also bad, since length is
checked first), and a length-1 write with nonzero offset is rejected
with `InvalidOffset`; in both cases no hardware command is issued and
the actuator notifier is not invoked, for any callback configuration. -/
theorem write_led_length_offset_validation
    (cb : Bool) (env : HwEnv) (buf : List Nat) (len offset : Nat) :
    (len ≠ 1 → write_led cb env buf len offset =
      (BT_GATT_ERR BT_ATT_ERR_INVALID_ATTRIBUTE_LEN, [])) ∧
    (offset ≠ 0 → write_led cb env buf 1 offset =
      (BT_GATT_ERR BT_ATT_ERR_INVALID_OFFSET, [])) := by
  constructor
  · intro h
    simp [write_led, h]
  · intro h
    simp [write_led, h]

/-- Closed witness for `write_led_length_offset_validation`: a 2-byte
write is rejected with `InvalidLength` and a 1-byte write at offset 3 is
rejected with `InvalidOffset`. -/
theorem write_led_length_offset_validation_witness :
    write_led true envOk [1, 1] 2 3 =
      (BT_GATT_ERR BT_ATT_ERR_INVALID_ATTRIBUTE_LEN, []) ∧
    write_led true envOk [1] 1 3 =
      (BT_GATT_ERR BT_ATT_ERR_INVALID_OFFSET, []) :=
  ⟨(write_led_length_offset_validation true envOk [1, 1] 2 3).1 (by decide),
   (write_led_length_offset_validation true envOk [1] 1 3).2 (by decide)⟩

/-- C1 counterexample: with no actuator-write notifier registered, a
length-1, offset-0 write of the out-of-domain byte 0x05 is NOT rejected:
it returns 1 (success) rather than the `ValueNotAllowed` error, because
the value-domain check is guarded by the callback-registered test. -/
theorem write_led_value_check_skipped_without_cb :
    write_led false envOk [5] 1 0 = (1, []) ∧
    (1 : Int) ≠ BT_GATT_ERR BT_ATT_ERR_VALUE_NOT_ALLOWED := by
  constructor
  · rfl
  · decide

/-- C1 (amended): for a length-1, offset-0 write whose payload byte is
not 0x00 or 0x01, if an actuator-write notifier is registered the write
is rejected with `ValueNotAllowed` and no hardware command is issued;
if no notifier is registered the value check is skipped and the write
returns 1 (success), still issuing no hardware command and invoking no
notifier. -/
theorem write_led_value_not_allowed
    (env : HwEnv) (buf : List Nat)
    (h0 : buf.headD 0 ≠ 0) (h1 : buf.headD 0 ≠ 1) :
    write_led true env buf 1 0 =
      (BT_GATT_ERR BT_ATT_ERR_VALUE_NOT_ALLOWED, []) ∧
    write_led false env buf 1 0 = (1, []) := by
  have h0' : buf.head?.getD 0 ≠ 0 := by simpa using h0
  have h1' : buf.head?.getD 0 ≠ 1 := by simpa using h1
  constructor
  · simp [write_led, h0', h1']
  · simp [write_led]

/-- Closed witness for `write_led_value_not_allowed` at payload 0x05. -/
theorem write_led_value_not_allowed_witness :
    write_led true envOk [5] 1 0 =
      (BT_GATT_ERR BT_ATT_ERR_VALUE_NOT_ALLOWED, []) ∧
    write_led false envOk [5] 1 0 = (1, []) :=
  write_led_value_not_allowed envOk [5] (by decide) (by decide)

/-- C3: a length-1, offset-0 write of 0x01 with the notifier registered
is accepted (returns 1) and, when the PWM device is ready and every
position command succeeds, issues exactly the ordered command sequence
[1125000 ns, sleep 50 ms, 1875000 ns, sleep 750 ms, 1125000 ns] and then
sets the indicator LED to true. -/
theorem write_led_forward_sequence
    (env : HwEnv) (hready : env.pwmReady = true)
    (hok : ∀ k, env.pwmResult k = 0) :
    write_led true env [1] 1 0 =
      (1, [Cmd.setPos 1125000, Cmd.sleepMs 50, Cmd.setPos 1875000,
           Cmd.sleepMs 750, Cmd.setPos 1125000, Cmd.setLed true]) := by
  simp [write_led, app_led_cb, run_servo_cycle, set_motor_angle, hready, hok]

/-- Closed witness for `write_led_forward_sequence` in the all-success
environment. -/
theorem write_led_forward_sequence_witness :
    write_led true envOk [1] 1 0 =
      (1, [Cmd.setPos 1125000, Cmd.sleepMs 50, Cmd.setPos 1875000,
           Cmd.sleepMs 750, Cmd.setPos 1125000, Cmd.setLed true]) :=
  write_led_forward_sequence envOk rfl (fun _ => rfl)

/-- C4 counterexample: the reset path commands the device-declared
minimum pulse width (1000000 ns), while the first (and last) step of the
forward sequence commands 1125000 ns, so the reset position is NOT the
same position as the forward sequence's near-minimum steps. -/
theorem reset_position_differs_from_forward_min :
    write_led true envOk [0] 1 0 =
      (1, [Cmd.setPos PWM_SERVO_MIN_PULSE_WIDTH, Cmd.setLed false]) ∧
    (run_servo_cycle envOk).2.head? = some (Cmd.setPos 1125000) ∧
    PWM_SERVO_MIN_PULSE_WIDTH ≠ 1125000 := by
  refine ⟨rfl, rfl, by decide⟩

/-- C4 (amended): a length-1, offset-0 write of 0x00 with the notifier
registered is accepted (returns 1) and issues exactly one position
command, at the device-declared minimum pulse width — a position
distinct from the 1125000 ns near-minimum used by the forward
sequence — then sets the indicator LED to false; this holds in every
hardware environment since the command's error is only logged. -/
theorem write_led_reset_sequence (env : HwEnv) :
    write_led true env [0] 1 0 =
      (1, [Cmd.setPos PWM_SERVO_MIN_PULSE_WIDTH, Cmd.setLed false]) := by
  simp [write_led, app_led_cb, set_motor_angle]

/-- C6: when the PWM device is ready, a failure of any position command
in the servo cycle aborts the remaining steps: the cycle returns the
first failing command's error code and the trace stops at that command,
with no retry. -/
theorem run_servo_cycle_fail_fast (env : HwEnv)
    (hready : env.pwmReady = true) :
    (env.pwmResult 0 ≠ 0 →
      run_servo_cycle env = (env.pwmResult 0, [Cmd.setPos 1125000])) ∧
    (env.pwmResult 0 = 0 → env.pwmResult 1 ≠ 0 →
      run_servo_cycle env = (env.pwmResult 1,
        [Cmd.setPos 1125000, Cmd.sleepMs 50, Cmd.setPos 1875000])) ∧
    (env.pwmResult 0 = 0 → env.pwmResult 1 = 0 → env.pwmResult 2 ≠ 0 →
      run_servo_cycle env = (env.pwmResult 2,
        [Cmd.setPos 1125000, Cmd.sleepMs 50, Cmd.setPos 1875000,
         Cmd.sleepMs 750, Cmd.setPos 1125000])) := by
  refine ⟨fun h0 => ?_, fun h0 h1 => ?_, fun h0 h1 h2 => ?_⟩
  · simp [run_servo_cycle, set_motor_angle, hready, h0]
  · simp [run_servo_cycle, set_motor_angle, hready, h0, h1]
  · simp [run_servo_cycle, set_motor_angle, hready, h0, h1, h2]

/-- Closed witness for `run_servo_cycle_fail_fast`: with the second
position command failing with -5, the cycle returns -5 and stops after
the second position command. -/
theorem run_servo_cycle_fail_fast_witness :
    run_servo_cycle envFailSecond = (-5,
      [Cmd.setPos 1125000, Cmd.sleepMs 50, Cmd.setPos 1875000]) :=
  (run_servo_cycle_fail_fast envFailSecond rfl).2.1 rfl (by decide)

/-- C9: an accepted LED write (length 1, offset 0, payload 0x00 or 0x01)
with the notifier registered reports result 1 to the peer in EVERY
hardware environment: the notifier returns no status, so a not-ready PWM
device, a failed position command, or a failed indicator set never
changes the attribute-protocol result. -/
theorem write_led_result_independent_of_hw
    (env : HwEnv) (buf : List Nat)
    (h : buf.headD 0 = 0 ∨ buf.headD 0 = 1) :
    (write_led true env buf 1 0).1 = 1 := by
  have h' : buf.head?.getD 0 = 0 ∨ buf.head?.getD 0 = 1 := by simpa using h
  simp [write_led, h']

/-- Closed witness for `write_led_result_independent_of_hw` in the
all-failure environment. -/
theorem write_led_result_independent_of_hw_witness :
    (write_led true envFail [1] 1 0).1 = 1 :=
  write_led_result_independent_of_hw envFail [1] (Or.inr rfl)

/-- Helper: the low bit of a masked word is nonzero exactly when bit 0
is set. -/
theorem land_one_ne_zero (n : Nat) : Nat.land n 1 ≠ 0 ↔ n.testBit 0 := by
  have h : Nat.land n 1 = n % 2 := Nat.and_one_is_mod n
  rw [h, Nat.testBit_zero]
  simp only [decide_eq_true_eq]
  omega

/-- Helper: bit 0 of a bitwise conjunction is the conjunction of the
bits. -/
theorem land_testBit (a b : Nat) :
    (Nat.land a b).testBit 0 = (a.testBit 0 && b.testBit 0) :=
  Nat.testBit_and a b 0

/-- C7: the debounced-input handler sets the stored boolean to `true`
when both the changed bit and the level bit of the monitored input are
set, to `false` when the changed bit is set but the level bit is clear,
and leaves it unchanged whenever the changed bit is clear, regardless of
level; in particular the sequence (level=1,changed=1) then
(level=0,changed=1) reads true then false. -/
theorem button_handler_edge_table (bs hc : Nat) (st : Bool) :
    (hc.testBit 0 → bs.testBit 0 → button_handler bs hc st = true) ∧
    (hc.testBit 0 → ¬ bs.testBit 0 → button_handler bs hc st = false) ∧
    (¬ hc.testBit 0 → button_handler bs hc st = st) ∧
    (button_handler 1 1 st = true ∧
     button_handler 0 1 (button_handler 1 1 st) = false) := by
  refine ⟨fun h1 h2 => ?_, fun h1 h2 => ?_, fun h1 => ?_, rfl, rfl⟩
  · unfold button_handler DK_BTN1_MSK
    rw [if_pos]
    rw [land_one_ne_zero, land_testBit, h1, h2]
    rfl
  · unfold button_handler DK_BTN1_MSK
    rw [if_neg, if_pos]
    · rw [land_one_ne_zero]
      exact h1
    · rw [land_one_ne_zero, land_testBit, h1]
      simpa using h2
  · unfold button_handler DK_BTN1_MSK
    rw [if_neg, if_neg]
    · rw [land_one_ne_zero]
      exact h1
    · rw [land_one_ne_zero, land_testBit]
      simp [h1]

/-- Closed witness for `button_handler_edge_table`: a rising edge on a
word with unrelated bits set, a falling edge, and a no-change event. -/
theorem button_handler_edge_table_witness :
    button_handler 5 3 false = true ∧
    button_handler 4 1 true = false ∧
    button_handler 1 4 true = true :=
  ⟨(button_handler_edge_table 5 3 false).1 (by decide) (by decide),
   (button_handler_edge_table 4 1 true).2.1 (by decide) (by decide),
   (button_handler_edge_table 1 4 true).2.2.1 (by decide)⟩

/-- C5: a read of the Button characteristic with the provider registered
and returning `true` stores `true` and hands exactly one byte 0x01 to
the peer (for the standard offset 0 and any buffer of at least one
byte); with no provider registered the read returns 0 bytes and the
stored value is unchanged. -/
theorem read_button_provider_behavior
    (stored p : Bool) (buf_len offset : Nat) (h : 1 ≤ buf_len) :
    read_button true true stored buf_len 0 = (true, 1, [1]) ∧
    read_button false p stored buf_len offset = (stored, 0, []) := by
  constructor
  · have hmin : min buf_len 1 = 1 := Nat.min_eq_right h
    simp [read_button, bt_gatt_attr_read, hmin]
  · rfl

/-- Closed witness for `read_button_provider_behavior` with a 22-byte
peer buffer. -/
theorem read_button_provider_behavior_witness :
    read_button true true false 22 0 = (true, 1, [1]) ∧
    read_button false true false 22 7 = (false, 0, []) :=
  read_button_provider_behavior false true 22 7 (by decide)

/-- C10: a read of the Button characteristic with the provider
registered overwrites the stored button value with the provider's result
before the generic attribute-read helper validates the request:
the stored value equals the provider's result for EVERY offset, and in
particular an out-of-range offset makes the helper fail the read with
`InvalidOffset` while the stored value has already been updated. -/
theorem read_button_updates_state_before_validation
    (p stored : Bool) (buf_len offset : Nat) :
    (read_button true p stored buf_len offset).1 = p ∧
    (1 < offset → read_button true p stored buf_len offset =
      (p, BT_GATT_ERR BT_ATT_ERR_INVALID_OFFSET, [])) := by
  constructor
  · rfl
  · intro h
    simp [read_button, bt_gatt_attr_read, h]

/-- Closed witness for `read_button_updates_state_before_validation`:
at offset 5 the read fails with `InvalidOffset` yet the stored value has
become the provider's result `true`. -/
theorem read_button_updates_state_before_validation_witness :
    (read_button true true false 22 5).1 = true ∧
    read_button true true false 22 5 =
      (true, BT_GATT_ERR BT_ATT_ERR_INVALID_OFFSET, []) :=
  ⟨(read_button_updates_state_before_validation true false 22 5).1,
   (read_button_updates_state_before_validation true false 22 5).2 (by decide)⟩

/-- Helper: folding one or more `requestStart` submissions over the
advertising-scheduler state leaves exactly one pending submission and
invokes no advertising start. -/
theorem foldl_replicate_reqStart (s : AdvState) (n : Nat) :
    (List.replicate (n + 1) AdvEvent.reqStart).foldl advStep s =
      ⟨true, s.startCount⟩ := by
  induction n generalizing s with
  | zero => rfl
  | succ n ih =>
    rw [List.replicate_succ, List.foldl_cons, ih]
    rfl

/-- C8: any positive number of `requestStart()` submissions before the
deferred work item executes coalesce — the state after the submissions
is exactly one pending submission with no advertising start invoked —
and when the work item then runs, the stack's advertising-start
primitive is invoked exactly once, leaving no pending submission. -/
theorem requestStart_coalesces (s : AdvState) (n : Nat) (h : 1 ≤ n) :
    (∀ m, 1 ≤ m → (List.replicate m AdvEvent.reqStart).foldl advStep s =
      ⟨true, s.startCount⟩) ∧
    (List.replicate n AdvEvent.reqStart ++ [AdvEvent.runWork]).foldl
      advStep s = ⟨false, s.startCount + 1⟩ := by
  have key : ∀ m, 1 ≤ m →
      (List.replicate m AdvEvent.reqStart).foldl advStep s =
        ⟨true, s.startCount⟩ := by
    intro m hm
    obtain ⟨k, rfl⟩ : ∃ k, m = k + 1 := ⟨m - 1, by omega⟩
    exact foldl_replicate_reqStart s k
  refine ⟨key, ?_⟩
  rw [List.foldl_append, key n h]
  rfl

/-- Closed witness for `requestStart_coalesces`: three rapid
`requestStart()` calls (e.g. from repeated recycle events) followed by
one execution of the work item yield exactly one advertising start. -/
theorem requestStart_coalesces_witness :
    (List.replicate 3 AdvEvent.reqStart ++ [AdvEvent.runWork]).foldl
      advStep ⟨false, 0⟩ = ⟨false, 1⟩ :=
  (requestStart_coalesces ⟨false, 0⟩ 3 (by decide)).2
